import Mathlib

/-!
# whatthefile, 01_File: a direct-syscall file probe

Shallow embedding of `src/01_File/main.go`.  The program issues three raw
system calls (open, write, fstat) through `syscall.Syscall` and prints what
each of them returned, followed by a dump of the `Stat` record.

The operating system is not part of the program.  It enters the embedding as
a parameter, `Kernel σ`: three state-passing functions, one per trap number
that `main` uses, each returning the triple `(r1, r2, errNo)` that
`syscall.Syscall` returns.  `main` is a total function of the kernel and of
its initial state and yields the console output, the record it printed and
the final kernel state.  The calls it issues are observed by running it on a
kernel that logs them.

Machine integers are natural numbers or integers (`uintptr`, `uint64`,
`uint32` as `Nat`; `int64`, `int32` as `Int`); `main` does no arithmetic on
them beyond `len(path)+1`, so no wrap-around occurs.
-/

namespace WhatTheFile

/-! ## The two records of the source -/

/-- Go `type Timespec struct`: seconds and nanoseconds, both `int64`. -/
structure Timespec where
  Sec : Int
  Nsec : Int
deriving DecidableEq

/-- Go `type Stat struct`, fields in declared order.  The array
`X__unused [3]int64` is a triple. -/
structure Stat where
  Dev : Nat
  Ino : Nat
  Nlink : Nat
  Mode : Nat
  Uid : Nat
  Gid : Nat
  X__pad0 : Int
  Rdev : Nat
  Size : Int
  Blksize : Int
  Blocks : Int
  Atim : Timespec
  Mtim : Timespec
  Ctim : Timespec
  X__unused : Int × Int × Int
deriving DecidableEq

/-- The zero value `Stat{}` of line 55. -/
def Stat.zero : Stat :=
  { Dev := 0, Ino := 0, Nlink := 0, Mode := 0, Uid := 0, Gid := 0, X__pad0 := 0,
    Rdev := 0, Size := 0, Blksize := 0, Blocks := 0,
    Atim := ⟨0, 0⟩, Mtim := ⟨0, 0⟩, Ctim := ⟨0, 0⟩, X__unused := (0, 0, 0) }

/-! ## Layout of the records

The field lists below repeat the two declarations with the Go type of every
field.  Sizes and alignments are those of the Go compiler on amd64, where
every fixed-width integer is aligned to its own size, an array has the
alignment of its element and a struct that of its widest field. -/

/-- The Go types that occur in the two declarations.  `named` is a struct
type that has been laid out already, given by its size and alignment. -/
inductive GoType where
  | int32
  | uint32
  | int64
  | uint64
  | array (n : Nat) (elem : GoType)
  | named (size : Nat) (align : Nat)
deriving DecidableEq

/-- Size in bytes, `unsafe.Sizeof`. -/
def GoType.size : GoType → Nat
  | .int32 => 4
  | .uint32 => 4
  | .int64 => 8
  | .uint64 => 8
  | .array n elem => n * elem.size
  | .named size _ => size

/-- Alignment in bytes, `unsafe.Alignof`. -/
def GoType.align : GoType → Nat
  | .int32 => 4
  | .uint32 => 4
  | .int64 => 8
  | .uint64 => 8
  | .array _ elem => elem.align
  | .named _ align => align

/-- One declared field. -/
structure Field where
  name : String
  type : GoType
deriving DecidableEq

/-- Round `off` up to the next multiple of `a`. -/
def alignUp (off a : Nat) : Nat := (off + a - 1) / a * a

/-- Offsets the compiler assigns: every field is placed at the first
multiple of its alignment at or after the end of the previous field. -/
def offsetsFrom : Nat → List Field → List (String × Nat)
  | _, [] => []
  | off, f :: fs =>
      (f.name, alignUp off f.type.align) ::
        offsetsFrom (alignUp off f.type.align + f.type.size) fs

/-- Offsets of a layout without any padding: every field starts where the
previous one ends. -/
def packedFrom : Nat → List Field → List (String × Nat)
  | _, [] => []
  | off, f :: fs => (f.name, off) :: packedFrom (off + f.type.size) fs

/-- End of the last field under the compiler's placement. -/
def endFrom : Nat → List Field → Nat
  | off, [] => off
  | off, f :: fs => endFrom (alignUp off f.type.align + f.type.size) fs

/-- Alignment of a struct: the largest alignment among its fields. -/
def structAlign (fs : List Field) : Nat :=
  fs.foldl (fun a f => max a f.type.align) 1

/-- Size of a struct, `unsafe.Sizeof`: the end of the last field rounded up
to the struct's alignment. -/
def structSize (fs : List Field) : Nat :=
  alignUp (endFrom 0 fs) (structAlign fs)

/-- Sum of the field widths. -/
def packedSize (fs : List Field) : Nat :=
  (fs.map (fun f => f.type.size)).sum

/-- Fields of `Timespec`, lines 11 to 14. -/
def TimespecFields : List Field :=
  [⟨"Sec", .int64⟩, ⟨"Nsec", .int64⟩]

/-- The struct type `Timespec` as a field type. -/
def TimespecType : GoType :=
  .named (structSize TimespecFields) (structAlign TimespecFields)

/-- Fields of `Stat`, lines 16 to 32. -/
def StatFields : List Field :=
  [⟨"Dev", .uint64⟩, ⟨"Ino", .uint64⟩, ⟨"Nlink", .uint64⟩,
   ⟨"Mode", .uint32⟩, ⟨"Uid", .uint32⟩, ⟨"Gid", .uint32⟩,
   ⟨"X__pad0", .int32⟩, ⟨"Rdev", .uint64⟩,
   ⟨"Size", .int64⟩, ⟨"Blksize", .int64⟩, ⟨"Blocks", .int64⟩,
   ⟨"Atim", TimespecType⟩, ⟨"Mtim", TimespecType⟩, ⟨"Ctim", TimespecType⟩,
   ⟨"X__unused", .array 3 .int64⟩]

/-- Whether every field sits at a multiple of its own alignment when the
fields are packed from offset `off` on. -/
def packedAligned : Nat → List Field → Bool
  | _, [] => true
  | off, f :: fs => off % f.type.align == 0 && packedAligned (off + f.type.size) fs

/-! ## Constants of Go's `syscall` package

The source names these constants and does not define them.  Their values are
those of `syscall` for linux/amd64, the platform whose `Stat_t` the record
above repeats field for field. -/

/-- Value of `syscall.SYS_WRITE`. -/
def SYS_WRITE : Nat := 1
/-- Value of `syscall.SYS_OPEN`. -/
def SYS_OPEN : Nat := 2
/-- Value of `syscall.SYS_FSTAT`. -/
def SYS_FSTAT : Nat := 5

/-- Value of `syscall.O_WRONLY`. -/
def O_WRONLY : Nat := 0x1
/-- Value of `syscall.O_RDWR`. -/
def O_RDWR : Nat := 0x2
/-- Mask of the access-mode bits, `syscall.O_ACCMODE`. -/
def O_ACCMODE : Nat := 0x3
/-- Value of `syscall.O_CREAT`. -/
def O_CREAT : Nat := 0x40
/-- Value of `syscall.O_TRUNC`. -/
def O_TRUNC : Nat := 0x200
/-- Value of `syscall.O_APPEND`. -/
def O_APPEND : Nat := 0x400

/-! ## Go built-ins used by `main` -/

/-- UTF-8 encoding of one character. -/
def utf8 (c : Char) : List Nat :=
  if c.toNat < 0x80 then [c.toNat]
  else if c.toNat < 0x800 then [0xC0 + c.toNat / 64, 0x80 + c.toNat % 64]
  else if c.toNat < 0x10000 then
    [0xE0 + c.toNat / 4096, 0x80 + c.toNat / 64 % 64, 0x80 + c.toNat % 64]
  else
    [0xF0 + c.toNat / 262144, 0x80 + c.toNat / 4096 % 64, 0x80 + c.toNat / 64 % 64,
     0x80 + c.toNat % 64]

/-- Bytes of a Go string: the UTF-8 encoding of its characters. -/
def stringBytes (s : String) : List Nat :=
  s.toList.foldr (fun c acc => utf8 c ++ acc) []

/-- Go `len` of a string: its length in bytes. -/
def len (s : String) : Nat := s.utf8ByteSize

/-- Go `make([]byte, n)`: `n` zero bytes. -/
def make (n : Nat) : List Nat := List.replicate n 0

/-- Go `copy(dst, src)`: the first `min (len dst) (len src)` bytes of `src`
replace the corresponding bytes of `dst`; the result is the new `dst`. -/
def copy (dst src : List Nat) : List Nat :=
  src.take dst.length ++ dst.drop src.length

/-! ## The kernel as seen through `syscall.Syscall` -/

/-- The triple `(r1, r2, err)` returned by `syscall.Syscall`. -/
structure Ret where
  r1 : Nat
  r2 : Nat
  errNo : Nat
deriving DecidableEq

/-- One call of `syscall.Syscall` as issued by `main`.  A pointer argument is
represented by the memory it points to: the byte buffer for open and write,
the `Stat` record for fstat (whose third argument is the constant 0). -/
inductive Call where
  | sysOpen (path : List Nat) (flags : Nat) (mode : Nat)
  | sysWrite (fd : Nat) (buf : List Nat) (count : Nat)
  | sysFstat (fd : Nat) (stat : Stat)
deriving DecidableEq

/-- Trap number of a call. -/
def Call.trap : Call → Nat
  | .sysOpen _ _ _ => SYS_OPEN
  | .sysWrite _ _ _ => SYS_WRITE
  | .sysFstat _ _ => SYS_FSTAT

/-- An operating system with state `σ`: what `syscall.Syscall` returns for
each of the three traps, and the state it leaves.  The fstat entry also
returns the contents of the `Stat` record behind the pointer after the
call. -/
structure Kernel (σ : Type) where
  sys_open : σ → List Nat → Nat → Nat → Ret × σ
  sys_write : σ → Nat → List Nat → Nat → Ret × σ
  sys_fstat : σ → Nat → Stat → (Ret × Stat) × σ

/-! ## Console output -/

/-- An operand of `fmt.Println`. -/
inductive Operand where
  | str (s : String)
  | uintptr (n : Nat)
  | errno (e : Nat)
deriving DecidableEq

/-- One print statement.  `fmt.Println` writes its operands separated by
blanks and ends the line; the format of the only `fmt.Printf` is `"%#v\n"`,
the Go-syntax dump of the record on a line of its own.  Every statement
therefore writes exactly one line. -/
inductive Line where
  | println (ops : List Operand)
  | printf (format : String) (stat : Stat)
deriving DecidableEq

/-- Result of one run of `main`. -/
structure Run (σ : Type) where
  -- lines printed, in order
  out : List Line
  -- the record `stat` when it is printed
  stat : Stat
  -- kernel state when `main` returns
  final : σ

/-- Line 40, printed when the open step reports an error. -/
def openDiag (e : Nat) : Line :=
  .println [.str "error when opening the file:", .errno e]

/-- Line 50, printed when the write step reports an error. -/
def writeDiag (e : Nat) : Line :=
  .println [.str "error when writing to the file:", .errno e]

/-- Line 58, printed when the fstat step reports an error. -/
def statDiag (e : Nat) : Line :=
  .println [.str "error when stating the file:", .errno e]

/-- Line 43, the result triple of the open step. -/
def openLine (r : Ret) : Line :=
  .println [.str "fd:", .uintptr r.r1, .str "r2:", .uintptr r.r2, .str "errNo:", .errno r.errNo]

/-- Lines 53 and 61, the result triple of the write and of the fstat step. -/
def resultLine (r : Ret) : Line :=
  .println [.str "r1:", .uintptr r.r1, .str "r2:", .uintptr r.r2, .str "errNo:", .errno r.errNo]

/-- Line 62, the dump of the record. -/
def dumpLine (st : Stat) : Line :=
  .printf "%#v\n" st

/-- The function `main` of `src/01_File/main.go`, lines 34 to 63. -/
def main {σ : Type} (K : Kernel σ) (s0 : σ) : Run σ :=
  let path := "/tmp/test.txt"
  let pathByte := copy (make (len path + 1)) (stringBytes path)
  let o := K.sys_open s0 pathByte (O_CREAT ||| O_RDWR) 0o644
  let fd := o.1.r1
  let out1 := if o.1.errNo ≠ 0x0 then [openDiag o.1.errNo] else []
  let out2 := out1 ++ [openLine o.1]
  let payload := "Hello world"
  let payloadByte := copy (make (len payload)) (stringBytes payload)
  let w := K.sys_write o.2 fd payloadByte payloadByte.length
  let out3 := out2 ++ (if w.1.errNo ≠ 0x0 then [writeDiag w.1.errNo] else [])
  let out4 := out3 ++ [resultLine w.1]
  let stat := Stat.zero
  let f := K.sys_fstat w.2 fd stat
  let out5 := out4 ++ (if f.1.1.errNo ≠ 0x0 then [statDiag f.1.1.errNo] else [])
  let out6 := out5 ++ [resultLine f.1.1]
  let out7 := out6 ++ [dumpLine f.1.2]
  { out := out7,
    stat := f.1.2,
    final := f.2 }

/-- The kernel `K` with a log: every call that reaches it is appended to the
log together with what `K` returned for it. -/
def logging {σ : Type} (K : Kernel σ) : Kernel (σ × List (Call × Ret)) :=
  { sys_open := fun s buf flags mode =>
      ((K.sys_open s.1 buf flags mode).1,
       ((K.sys_open s.1 buf flags mode).2,
        s.2 ++ [(.sysOpen buf flags mode, (K.sys_open s.1 buf flags mode).1)])),
    sys_write := fun s fd buf count =>
      ((K.sys_write s.1 fd buf count).1,
       ((K.sys_write s.1 fd buf count).2,
        s.2 ++ [(.sysWrite fd buf count, (K.sys_write s.1 fd buf count).1)])),
    sys_fstat := fun s fd st =>
      ((K.sys_fstat s.1 fd st).1,
       ((K.sys_fstat s.1 fd st).2,
        s.2 ++ [(.sysFstat fd st, (K.sys_fstat s.1 fd st).1.1)])) }

/-- The system calls of the run of `main` on `K` from `s0`, in the order
issued, each with what it returned: the log of the logging kernel. -/
def trace {σ : Type} (K : Kernel σ) (s0 : σ) : List (Call × Ret) :=
  (main (logging K) (s0, [])).final.2

/-- The 13 bytes of `"/tmp/test.txt"`. -/
def pathName : List Nat := [47, 116, 109, 112, 47, 116, 101, 115, 116, 46, 116, 120, 116]

/-- The 11 bytes of `"Hello world"`. -/
def helloWorld : List Nat := [72, 101, 108, 108, 111, 32, 119, 111, 114, 108, 100]

/-- What the open step of a run from `s0` returns. -/
def openRet {σ : Type} (K : Kernel σ) (s0 : σ) : Ret :=
  (K.sys_open s0 (pathName ++ [0]) 66 420).1

/-- Kernel state after the open step. -/
def afterOpen {σ : Type} (K : Kernel σ) (s0 : σ) : σ :=
  (K.sys_open s0 (pathName ++ [0]) 66 420).2

/-- What the write step of a run from `s0` returns. -/
def writeRet {σ : Type} (K : Kernel σ) (s0 : σ) : Ret :=
  (K.sys_write (afterOpen K s0) (openRet K s0).r1 helloWorld 11).1

/-- Kernel state after the write step. -/
def afterWrite {σ : Type} (K : Kernel σ) (s0 : σ) : σ :=
  (K.sys_write (afterOpen K s0) (openRet K s0).r1 helloWorld 11).2

/-- What the fstat step of a run from `s0` returns. -/
def statRet {σ : Type} (K : Kernel σ) (s0 : σ) : Ret :=
  (K.sys_fstat (afterWrite K s0) (openRet K s0).r1 Stat.zero).1.1

/-- The `Stat` record behind the pointer after the fstat step of a run from
`s0`: what the kernel answered to the fstat call on the zero record. -/
def statRecord {σ : Type} (K : Kernel σ) (s0 : σ) : Stat :=
  (K.sys_fstat (afterWrite K s0) (openRet K s0).r1 Stat.zero).1.2

/-- Number of steps of a run that reported a non-zero error indicator. -/
def failedSteps {σ : Type} (K : Kernel σ) (s0 : σ) : Nat :=
  (if (openRet K s0).errNo ≠ 0 then 1 else 0) +
  (if (writeRet K s0).errNo ≠ 0 then 1 else 0) +
  (if (statRet K s0).errNo ≠ 0 then 1 else 0)

/-! ## File semantics assumed of the kernel

The effect of the three calls on the file system is not in the program; it
is the documented behaviour of open(2), write(2) and fstat(2).  It enters
the development as an explicit assumption, `Posix K V`, on a kernel `K` and
a way `V` of observing its state.  `refKernel` below is one kernel that
meets the assumption. -/

/-- The name a NUL-terminated buffer denotes: the bytes before the first
zero byte. -/
def cstring (buf : List Nat) : List Nat := buf.takeWhile (fun b => b ≠ 0)

/-- Content of a file after `data` is written at byte offset `off`: bytes
before `off` are kept (a gap past the end reads as zeros), `data` replaces
what was there, bytes past the end of `data` are kept. -/
def overwrite (c : List Nat) (off : Nat) (data : List Nat) : List Nat :=
  c.take off ++ List.replicate (off - c.length) 0 ++ data ++ c.drop (off + data.length)

/-- What can be observed of a kernel state: the content of the file of a
given name, if that file exists, and for a handle that is open for writing
and not in append mode the file it refers to and its current offset. -/
structure FsView (σ : Type) where
  content : σ → List Nat → Option (List Nat)
  cursor : σ → Nat → Option (List Nat × Nat)

/-- The part of POSIX semantics of regular files the properties below rest
on.  It speaks of names that denote, or are created as, regular files whose
bytes the kernel stores; a kernel under which the name is a device or another
special file does not meet it.

* `open_ok`: an open of a NUL-terminated name that reports no error, asks
  for write access and sets neither `O_TRUNC` nor `O_APPEND` returns a handle
  at offset 0 on the named file, whose content is what it was, or empty if
  the file did not exist.
* `write_le`: a write that reports no error returns at most the byte count
  it was given.
* `write_ok`: a write of at most the buffer's length that reports no error
  on such a handle puts the first `r1` bytes of the buffer at the handle's
  offset and advances the offset.
* `fstat_ok`: an fstat that reports no error on such a handle stores the
  length of the file in `Size` and changes no file. -/
structure Posix {σ : Type} (K : Kernel σ) (V : FsView σ) : Prop where
  open_ok : ∀ (s : σ) (buf : List Nat) (flags mode : Nat),
    0 ∈ buf →
    (K.sys_open s buf flags mode).1.errNo = 0 →
    (flags &&& O_ACCMODE = O_WRONLY ∨ flags &&& O_ACCMODE = O_RDWR) →
    flags &&& O_TRUNC = 0 → flags &&& O_APPEND = 0 →
    V.cursor (K.sys_open s buf flags mode).2 (K.sys_open s buf flags mode).1.r1
        = some (cstring buf, 0) ∧
    V.content (K.sys_open s buf flags mode).2 (cstring buf)
        = some ((V.content s (cstring buf)).getD [])
  write_le : ∀ (s : σ) (fd : Nat) (buf : List Nat) (count : Nat),
    (K.sys_write s fd buf count).1.errNo = 0 →
    (K.sys_write s fd buf count).1.r1 ≤ count
  write_ok : ∀ (s : σ) (fd : Nat) (buf : List Nat) (count : Nat)
      (p : List Nat) (off : Nat) (c : List Nat),
    V.cursor s fd = some (p, off) → V.content s p = some c →
    count ≤ buf.length →
    (K.sys_write s fd buf count).1.errNo = 0 →
    V.content (K.sys_write s fd buf count).2 p
        = some (overwrite c off (buf.take (K.sys_write s fd buf count).1.r1)) ∧
    V.cursor (K.sys_write s fd buf count).2 fd
        = some (p, off + (K.sys_write s fd buf count).1.r1)
  fstat_ok : ∀ (s : σ) (fd : Nat) (st : Stat) (p : List Nat) (off : Nat) (c : List Nat),
    V.cursor s fd = some (p, off) → V.content s p = some c →
    (K.sys_fstat s fd st).1.1.errNo = 0 →
    (K.sys_fstat s fd st).1.2.Size = (c.length : Int) ∧
    ∀ q, V.content (K.sys_fstat s fd st).2 q = V.content s q

/-- Whether every step of the run from `s0` reported a zero error
indicator. -/
def allZero {σ : Type} (K : Kernel σ) (s0 : σ) : Prop :=
  (openRet K s0).errNo = 0 ∧ (writeRet K s0).errNo = 0 ∧ (statRet K s0).errNo = 0

/-- Whether every call of the run from `s0` succeeded: no step reported an
error and the write accepted the whole buffer of 11 bytes. -/
def allSucceed {σ : Type} (K : Kernel σ) (s0 : σ) : Prop :=
  allZero K s0 ∧ (writeRet K s0).r1 = 11

instance {σ : Type} (K : Kernel σ) (s0 : σ) : Decidable (allZero K s0) := by
  unfold allZero
  infer_instance

instance {σ : Type} (K : Kernel σ) (s0 : σ) : Decidable (allSucceed K s0) := by
  unfold allSucceed
  infer_instance

/-- Whether a printed line is one of the three diagnostic lines (lines 40,
50 and 58): a message followed by an error number. -/
def isDiag : Line → Bool
  | .println [.str m, .errno _] =>
      m == "error when opening the file:" || m == "error when writing to the file:" ||
        m == "error when stating the file:"
  | _ => false

/-- Whether a printed line starts with the text `msg`. -/
def hasMessage (msg : String) : Line → Bool
  | .println (.str m :: _) => m == msg
  | _ => false

/-! ## A reference kernel

A small executable file system with the three calls: named files, a table
of open handles, a switch that forbids creating new names (an unwritable
directory) and a limit on file size (the `RLIMIT_FSIZE` resource limit). -/

/-- Error number `ENOENT`. -/
def ENOENT : Nat := 2
/-- Error number `EBADF`. -/
def EBADF : Nat := 9
/-- Error number `EACCES`. -/
def EACCES : Nat := 13
/-- Error number `EFBIG`. -/
def EFBIG : Nat := 27

/-- What `syscall.Syscall` returns when the kernel reports error `e`: `r1`
is all ones, `r2` is zero. -/
def failure (e : Nat) : Ret := ⟨2 ^ 64 - 1, 0, e⟩

/-- Point update of a table. -/
def setAt {α β : Type} [DecidableEq α] (f : α → β) (k : α) (v : β) : α → β :=
  fun x => if x = k then v else f x

/-- An open file description. -/
structure Handle where
  path : List Nat
  offset : Nat
  writable : Bool
  append : Bool
deriving DecidableEq

/-- State of the reference kernel. -/
structure Fs where
  files : List Nat → Option (List Nat)
  handles : Nat → Option Handle
  nextFd : Nat
  mayCreate : Bool
  fsizeLimit : Nat

/-- The open call of the reference kernel.  The permission bits are taken
and not looked at. -/
def Fs.sys_open (s : Fs) (buf : List Nat) (flags _mode : Nat) : Ret × Fs :=
  let p := cstring buf
  let h : Handle :=
    { path := p, offset := 0,
      writable := decide (flags &&& O_ACCMODE = O_WRONLY ∨ flags &&& O_ACCMODE = O_RDWR),
      append := decide (flags &&& O_APPEND ≠ 0) }
  match s.files p with
  | none =>
      if flags &&& O_CREAT = 0 then (failure ENOENT, s)
      else if s.mayCreate = false then (failure EACCES, s)
      else (⟨s.nextFd, 0, 0⟩,
            { s with files := setAt s.files p (some []),
                     handles := setAt s.handles s.nextFd (some h),
                     nextFd := s.nextFd + 1 })
  | some c =>
      (⟨s.nextFd, 0, 0⟩,
       { s with files := setAt s.files p
                  (some (if flags &&& O_TRUNC ≠ 0 ∧ h.writable = true then [] else c)),
                handles := setAt s.handles s.nextFd (some h),
                nextFd := s.nextFd + 1 })

/-- The write call of the reference kernel.  A write that would pass the
file size limit is cut at the limit; one that starts at or past it fails
with `EFBIG`. -/
def Fs.sys_write (s : Fs) (fd : Nat) (buf : List Nat) (count : Nat) : Ret × Fs :=
  match s.handles fd with
  | none => (failure EBADF, s)
  | some h =>
      if h.writable = false then (failure EBADF, s)
      else
        match s.files h.path with
        | none => (failure EBADF, s)
        | some c =>
            let pos := if h.append = true then c.length else h.offset
            let n := min count (s.fsizeLimit - pos)
            if 0 < count ∧ n = 0 then (failure EFBIG, s)
            else (⟨n, 0, 0⟩,
                  { s with files := setAt s.files h.path (some (overwrite c pos (buf.take n))),
                           handles := setAt s.handles fd (some { h with offset := pos + n }) })

/-- The fstat call of the reference kernel: a regular file with one link,
its size, and its size in blocks of 512 bytes. -/
def Fs.sys_fstat (s : Fs) (fd : Nat) (st : Stat) : (Ret × Stat) × Fs :=
  match s.handles fd with
  | none => ((failure EBADF, st), s)
  | some h =>
      match s.files h.path with
      | none => ((failure EBADF, st), s)
      | some c =>
          ((⟨0, 0, 0⟩,
            { st with Nlink := 1, Mode := 0o100644, Size := (c.length : Int),
                      Blksize := 4096, Blocks := ((c.length + 511) / 512 : Nat) }), s)

/-- The reference kernel. -/
def refKernel : Kernel Fs :=
  { sys_open := Fs.sys_open, sys_write := Fs.sys_write, sys_fstat := Fs.sys_fstat }

/-- Observation of the reference kernel. -/
def refView : FsView Fs :=
  { content := fun s p => s.files p,
    cursor := fun s fd =>
      match s.handles fd with
      | none => none
      | some h => if h.writable = true ∧ h.append = false then some (h.path, h.offset) else none }

/-- A state with no file, no open handle beyond the three standard ones, a
writable directory and no effective size limit. -/
def fresh : Fs :=
  { files := fun _ => none, handles := fun _ => none, nextFd := 3,
    mayCreate := true, fsizeLimit := 2 ^ 63 - 1 }

/-- The fresh state with `/tmp/test.txt` present and holding `c`. -/
def withFile (c : List Nat) : Fs :=
  { fresh with files := setAt fresh.files pathName (some c) }

/-- The fresh state under a file size limit of `n` bytes. -/
def limited (n : Nat) : Fs :=
  { fresh with fsizeLimit := n }

/-- The fresh state with a directory in which no name can be created. -/
def unwritable : Fs :=
  { fresh with mayCreate := false }

/-- Twenty bytes, `"0123456789abcdefghij"`. -/
def twentyBytes : List Nat := stringBytes "0123456789abcdefghij"

/-! ## Basic facts -/

theorem pathByte_eq : copy (make (len "/tmp/test.txt" + 1)) (stringBytes "/tmp/test.txt")
    = pathName ++ [0] := by
  decide

theorem payloadByte_eq : copy (make (len "Hello world")) (stringBytes "Hello world")
    = helloWorld := by
  decide

theorem helloWorld_length : helloWorld.length = 11 := rfl

theorem flags_eq : (O_CREAT ||| O_RDWR) = 66 := by decide

theorem mode_eq : (0o644 : Nat) = 420 := by decide

/-- The trace of `main` in terms of the three step results. -/
theorem main_trace {σ : Type} (K : Kernel σ) (s0 : σ) :
    trace K s0 =
      [(.sysOpen (pathName ++ [0]) 66 420, openRet K s0),
       (.sysWrite (openRet K s0).r1 helloWorld 11, writeRet K s0),
       (.sysFstat (openRet K s0).r1 Stat.zero, statRet K s0)] := by
  simp only [trace, main, logging, pathByte_eq, payloadByte_eq, flags_eq, mode_eq, openRet,
    afterOpen, writeRet, afterWrite, statRet]
  rfl

/-- Logging does not change what `main` prints, the record it prints or the
state the kernel is left in. -/
theorem main_logging {σ : Type} (K : Kernel σ) (s0 : σ) (l : List (Call × Ret)) :
    (main (logging K) (s0, l)).out = (main K s0).out ∧
    (main (logging K) (s0, l)).stat = (main K s0).stat ∧
    (main (logging K) (s0, l)).final.1 = (main K s0).final := by
  simp [main, logging]

/-- The output of `main` in terms of the three step results. -/
theorem main_out {σ : Type} (K : Kernel σ) (s0 : σ) :
    (main K s0).out =
      (if (openRet K s0).errNo ≠ 0 then [openDiag (openRet K s0).errNo] else []) ++
      [openLine (openRet K s0)] ++
      (if (writeRet K s0).errNo ≠ 0 then [writeDiag (writeRet K s0).errNo] else []) ++
      [resultLine (writeRet K s0)] ++
      (if (statRet K s0).errNo ≠ 0 then [statDiag (statRet K s0).errNo] else []) ++
      [resultLine (statRet K s0), dumpLine (main K s0).stat] := by
  simp only [main, pathByte_eq, payloadByte_eq, flags_eq, mode_eq, openRet, afterOpen,
    writeRet, afterWrite, statRet]
  simp [helloWorld]

/-- The final state of `main` is the state the fstat step leaves. -/
theorem main_final {σ : Type} (K : Kernel σ) (s0 : σ) :
    (main K s0).final =
      (K.sys_fstat (afterWrite K s0) (openRet K s0).r1 Stat.zero).2 := by
  simp only [main, pathByte_eq, payloadByte_eq, flags_eq, mode_eq, openRet, afterOpen,
    writeRet, afterWrite, statRet]
  rfl

/-- The record `main` prints is the one the fstat step leaves. -/
theorem main_stat {σ : Type} (K : Kernel σ) (s0 : σ) :
    (main K s0).stat =
      (K.sys_fstat (afterWrite K s0) (openRet K s0).r1 Stat.zero).1.2 := by
  simp only [main, pathByte_eq, payloadByte_eq, flags_eq, mode_eq, openRet, afterOpen,
    writeRet, afterWrite, statRet]
  rfl

theorem cstring_path : cstring (pathName ++ [0]) = pathName := by decide

/-- The reference kernel meets the assumption. -/
theorem refKernel_posix : Posix refKernel refView where
  open_ok := by
    intro s buf flags mode _ herr hacc htr hap
    simp only [refKernel, refView, Fs.sys_open] at herr ⊢
    cases hf : s.files (cstring buf) with
    | none =>
      simp only [hf] at herr ⊢
      split_ifs at herr ⊢ with h1 h2
      · simp [failure, ENOENT] at herr
      · simp [failure, EACCES] at herr
      · simp [setAt, hacc, hap]
    | some c =>
      simp [hf, setAt, hacc, hap, htr]
  write_le := by
    intro s fd buf count
    show (Fs.sys_write s fd buf count).1.errNo = 0 → (Fs.sys_write s fd buf count).1.r1 ≤ count
    unfold Fs.sys_write
    split
    · simp [failure, EBADF]
    · split
      · simp [failure, EBADF]
      · split
        · simp [failure, EBADF]
        · dsimp only
          split_ifs <;> simp [failure, EFBIG]
  write_ok := by
    intro s fd buf count p off c hcur hcon _ herr
    simp only [refKernel, refView, Fs.sys_write] at herr hcur hcon ⊢
    cases hh : s.handles fd with
    | none => simp [hh] at hcur
    | some h =>
      simp only [hh] at herr hcur ⊢
      split_ifs at hcur with hw
      simp only [Option.some.injEq, Prod.mk.injEq] at hcur
      obtain ⟨hp, ho⟩ := hcur
      subst hp ho
      simp only [hw.1, hw.2, hcon] at herr ⊢
      simp only [Bool.true_eq_false, if_false, Bool.false_eq_true] at herr ⊢
      split_ifs at herr ⊢ with h2
      · simp [failure, EFBIG] at herr
      · simp [setAt, hw.1, hw.2]
  fstat_ok := by
    intro s fd st p off c hcur hcon herr
    simp only [refKernel, refView, Fs.sys_fstat] at herr hcur hcon ⊢
    cases hh : s.handles fd with
    | none => simp [hh] at hcur
    | some h =>
      simp only [hh] at herr hcur ⊢
      split_ifs at hcur with hw
      simp only [Option.some.injEq, Prod.mk.injEq] at hcur
      obtain ⟨hp, ho⟩ := hcur
      subst hp ho
      simp [hcon]

theorem overwrite_zero (c d : List Nat) : overwrite c 0 d = d ++ c.drop d.length := by
  simp [overwrite]

/-- Effect of a run without error on the file and on the printed record,
for a kernel with POSIX file semantics: the bytes the write accepted
replace the start of the previous content, and `Size` is the new length. -/
theorem run_effect {σ : Type} (K : Kernel σ) (V : FsView σ) (hP : Posix K V) (s0 : σ)
    (hz : allZero K s0) :
    V.content (main K s0).final pathName
      = some (helloWorld.take (writeRet K s0).r1 ++
          ((V.content s0 pathName).getD []).drop (helloWorld.take (writeRet K s0).r1).length) ∧
    (main K s0).stat.Size
      = (((helloWorld.take (writeRet K s0).r1 ++
          ((V.content s0 pathName).getD []).drop
            (helloWorld.take (writeRet K s0).r1).length).length : Nat) : Int) := by
  obtain ⟨ho, hw, hf⟩ := hz
  have h1 := hP.open_ok s0 (pathName ++ [0]) 66 420 (by decide) ho (by decide) (by decide)
    (by decide)
  rw [cstring_path] at h1
  obtain ⟨hcur, hcon⟩ := h1
  have h2 := hP.write_ok (afterOpen K s0) (openRet K s0).r1 helloWorld 11 pathName 0 _
    hcur hcon (by decide) hw
  obtain ⟨hcon2, hcur2⟩ := h2
  have h3 := hP.fstat_ok (afterWrite K s0) (openRet K s0).r1 Stat.zero pathName _ _
    hcur2 hcon2 hf
  obtain ⟨hsize, hsame⟩ := h3
  rw [overwrite_zero] at hcon2 hsize
  constructor
  · rw [main_final]
    exact (hsame pathName).trans hcon2
  · rw [main_stat]
    exact hsize

theorem stringBytes_path : stringBytes "/tmp/test.txt" = pathName := by decide

theorem stringBytes_hello : stringBytes "Hello world" = helloWorld := by decide

theorem four_sublist {α : Type} (a b c : List α) (x y z w : α) :
    List.Sublist [x, y, z, w] (a ++ [x] ++ b ++ [y] ++ c ++ [z, w]) := by
  have h := (((((List.nil_sublist a).append (List.Sublist.refl [x])).append
    (List.nil_sublist b)).append (List.Sublist.refl [y])).append
    (List.nil_sublist c)).append (List.Sublist.refl [z, w])
  simpa using h

theorem four_sublist_left {α : Type} (a b c : List α) (x y z w : α) :
    List.Sublist [x, y, z, w] (a ++ [x] ++ b ++ [y] ++ c ++ [z] ++ [w]) := by
  have h := four_sublist a b c x y z w
  simpa using h

theorem getLast_two {α : Type} (l : List α) (z w : α) :
    (l ++ [z, w]).getLast? = some w := by
  rw [show l ++ [z, w] = (l ++ [z]) ++ [w] by simp, List.getLast?_concat]

/-- The reference kernel with an unwritable directory: open fails with
`EACCES`, write and fstat are still issued on the handle value it returned and
fail with `EBADF`, seven lines are printed and the record stays zero. -/
theorem unwritable_run :
    trace refKernel unwritable
      = [(.sysOpen (pathName ++ [0]) 66 420, failure EACCES),
         (.sysWrite (2 ^ 64 - 1) helloWorld 11, failure EBADF),
         (.sysFstat (2 ^ 64 - 1) Stat.zero, failure EBADF)] ∧
    (main refKernel unwritable).out.length = 7 ∧
    (main refKernel unwritable).stat = Stat.zero := by
  decide

/-! ## The claims -/

/-- C1: on a kernel with POSIX file semantics, from every state in which
`/tmp/test.txt` does not exist and in which open, write and fstat all succeed
(write accepting the whole buffer), after one run of `main` the file exists,
is exactly 11 bytes long and holds exactly the bytes of "Hello world". -/
theorem C1_fresh_file_holds_payload {σ : Type} (K : Kernel σ) (V : FsView σ)
    (hP : Posix K V) (s0 : σ)
    (hfresh : V.content s0 (stringBytes "/tmp/test.txt") = none)
    (hok : allSucceed K s0) :
    ∃ c, V.content (main K s0).final (stringBytes "/tmp/test.txt") = some c ∧
      c.length = 11 ∧ c = stringBytes "Hello world" := by
  rw [stringBytes_path] at hfresh ⊢
  rw [stringBytes_hello]
  have h := (run_effect K V hP s0 hok.1).1
  rw [hok.2, hfresh] at h
  exact ⟨helloWorld, by simpa [helloWorld] using h, by decide, rfl⟩

/-- Witness of C1: the reference kernel from its fresh state. -/
theorem C1_witness :
    refView.content fresh (stringBytes "/tmp/test.txt") = none ∧ allSucceed refKernel fresh ∧
    ∃ c, refView.content (main refKernel fresh).final (stringBytes "/tmp/test.txt") = some c ∧
      c.length = 11 ∧ c = stringBytes "Hello world" :=
  ⟨by decide, by decide,
    C1_fresh_file_holds_payload refKernel refView refKernel_posix fresh (by decide) (by decide)⟩

/-- C2 as stated fails: with 20 bytes already in `/tmp/test.txt` all three
calls report no error and the `Size` of the record printed last is 20; under
a file size limit of 5 bytes all three calls report no error and that `Size`
is 5. -/
theorem C2_counterexample :
    Posix refKernel refView ∧
    (allZero refKernel (withFile twentyBytes) ∧
      (main refKernel (withFile twentyBytes)).out.getLast?
        = some (.printf "%#v\n" (statRecord refKernel (withFile twentyBytes))) ∧
      (statRecord refKernel (withFile twentyBytes)).Size = 20 ∧
      (main refKernel (withFile twentyBytes)).stat.Size = 20) ∧
    (allZero refKernel (limited 5) ∧
      (main refKernel (limited 5)).out.getLast?
        = some (.printf "%#v\n" (statRecord refKernel (limited 5))) ∧
      (statRecord refKernel (limited 5)).Size = 5 ∧
      (main refKernel (limited 5)).stat.Size = 5) :=
  ⟨refKernel_posix, ⟨by decide, by decide, by decide, by decide⟩,
    ⟨by decide, by decide, by decide, by decide⟩⟩

/-- C2, amended: on a kernel with the POSIX semantics of regular files, under
which `/tmp/test.txt` names or is created as a regular file, in every run in
which open, write and fstat all return a zero error indicator, the `Size`
field of the `Stat` record printed at the end is the larger of the previous
length of the file (0 if it did not exist) and the byte count `r1` that write
returned; it is 11 when write accepted all 11 bytes and the previous content
was at most 11 bytes long.  The record is the one the fstat call left behind
the pointer, and its dump is the last line printed. -/
theorem C2_size_is_max_of_old_length_and_written {σ : Type} (K : Kernel σ) (V : FsView σ)
    (hP : Posix K V) (s0 : σ) (hz : allZero K s0) :
    (main K s0).out.getLast? = some (.printf "%#v\n" (statRecord K s0)) ∧
    (main K s0).stat = statRecord K s0 ∧
    (statRecord K s0).Size
      = ((max ((V.content s0 (stringBytes "/tmp/test.txt")).getD []).length
          (writeRet K s0).r1 : Nat) : Int) ∧
    ((writeRet K s0).r1 = 11 →
      ((V.content s0 (stringBytes "/tmp/test.txt")).getD []).length ≤ 11 →
      (statRecord K s0).Size = 11) := by
  rw [stringBytes_path]
  have h := (run_effect K V hP s0 hz).2
  rw [main_stat] at h
  have hle : (writeRet K s0).r1 ≤ 11 := hP.write_le _ _ _ _ hz.2.1
  have hlen : (helloWorld.take (writeRet K s0).r1).length = (writeRet K s0).r1 := by
    simp [helloWorld, hle]
  have hmax : (helloWorld.take (writeRet K s0).r1 ++
      ((V.content s0 pathName).getD []).drop
        (helloWorld.take (writeRet K s0).r1).length).length
      = max ((V.content s0 pathName).getD []).length (writeRet K s0).r1 := by
    rw [List.length_append, List.length_drop, hlen]
    omega
  rw [hmax] at h
  refine ⟨?_, ?_, h, ?_⟩
  · simp only [main, statRecord, openRet, writeRet, afterOpen, afterWrite, pathByte_eq,
      payloadByte_eq, flags_eq, mode_eq, helloWorld_length,
      dumpLine]
    exact List.getLast?_concat _
  · simp only [main, statRecord, openRet, writeRet, afterOpen, afterWrite, pathByte_eq,
      payloadByte_eq, flags_eq, mode_eq, helloWorld_length]
  · intro h11 hn
    have h' : (statRecord K s0).Size
        = ((max ((V.content s0 pathName).getD []).length (writeRet K s0).r1 : Nat) : Int) := h
    rw [h', h11, max_eq_right hn]
    rfl

/-- Witness of C2: the reference kernel with 20 bytes in the file. -/
theorem C2_witness :
    allZero refKernel (withFile twentyBytes) ∧
    (statRecord refKernel (withFile twentyBytes)).Size
      = ((max ((refView.content (withFile twentyBytes) (stringBytes "/tmp/test.txt")).getD []).length
          (writeRet refKernel (withFile twentyBytes)).r1 : Nat) : Int) :=
  ⟨by decide,
    (C2_size_is_max_of_old_length_and_written refKernel refView refKernel_posix
      (withFile twentyBytes) (by decide)).2.2.1⟩

/-- C3 as stated fails: under a file size limit of 5 bytes the write call
returns a zero error indicator and `r1 = 5`, and that is what `main`
prints. -/
theorem C3_counterexample :
    Posix refKernel refView ∧
    (writeRet refKernel (limited 5)).errNo = 0 ∧
    (writeRet refKernel (limited 5)).r1 = 5 ∧
    (main refKernel (limited 5)).out.get? 1
      = some (.println [.str "r1:", .uintptr 5, .str "r2:", .uintptr 0,
          .str "errNo:", .errno 0]) :=
  ⟨refKernel_posix, by decide, by decide, by decide⟩

/-- C3, amended: the write call is passed the 11 payload bytes and the byte
count 11; in every run in which it returns a zero error indicator (on a
kernel with POSIX file semantics) the `r1` that `main` prints is the value
the call returned, it is at most 11, and it equals 11 exactly when the whole
buffer was accepted. -/
theorem C3_written_count_at_most_payload {σ : Type} (K : Kernel σ) (V : FsView σ)
    (hP : Posix K V) (s0 : σ) (hw : (writeRet K s0).errNo = 0) :
    (trace K s0).get? 1
      = some (.sysWrite (openRet K s0).r1 (stringBytes "Hello world")
          (stringBytes "Hello world").length, writeRet K s0) ∧
    (stringBytes "Hello world").length = 11 ∧
    resultLine (writeRet K s0) ∈ (main K s0).out ∧
    (writeRet K s0).r1 ≤ 11 ∧
    ((writeRet K s0).r1 = 11 ↔
      (stringBytes "Hello world").take (writeRet K s0).r1 = stringBytes "Hello world") := by
  have hle : (writeRet K s0).r1 ≤ 11 := hP.write_le _ _ _ _ hw
  rw [stringBytes_hello]
  refine ⟨?_, by decide, ?_, hle, ?_⟩
  · rw [main_trace]
    rfl
  · rw [main_out]
    simp
  · constructor
    · intro h
      rw [h]
      decide
    · intro h
      have hl := congrArg List.length h
      simp [helloWorld] at hl
      omega

/-- Witness of C3: the reference kernel from its fresh state. -/
theorem C3_witness :
    (writeRet refKernel fresh).errNo = 0 ∧ (writeRet refKernel fresh).r1 ≤ 11 :=
  ⟨by decide,
    (C3_written_count_at_most_payload refKernel refView refKernel_posix fresh (by decide)).2.2.2.1⟩

/-- C4: on a kernel with POSIX file semantics, from every state in which
`/tmp/test.txt` does not exist, when all calls of a first and of a second run
of `main` succeed, the content of the file after the second run equals its
content after the first run, and both are "Hello world".  The second run
starts in a state `s1` that holds the file as the first run left it: the
final state of the first run itself, or that state after the first process
has been torn down. -/
theorem C4_second_run_leaves_same_content {σ : Type} (K : Kernel σ) (V : FsView σ)
    (hP : Posix K V) (s0 s1 : σ)
    (hfresh : V.content s0 (stringBytes "/tmp/test.txt") = none)
    (hok1 : allSucceed K s0)
    (hs1 : V.content s1 (stringBytes "/tmp/test.txt")
      = V.content (main K s0).final (stringBytes "/tmp/test.txt"))
    (hok2 : allSucceed K s1) :
    V.content (main K s1).final (stringBytes "/tmp/test.txt")
      = V.content (main K s0).final (stringBytes "/tmp/test.txt") ∧
    V.content (main K s0).final (stringBytes "/tmp/test.txt")
      = some (stringBytes "Hello world") ∧
    V.content (main K s1).final (stringBytes "/tmp/test.txt")
      = some (stringBytes "Hello world") := by
  rw [stringBytes_path] at hfresh hs1 ⊢
  rw [stringBytes_hello]
  have h1 := (run_effect K V hP s0 hok1.1).1
  rw [hok1.2, hfresh] at h1
  have h1' : V.content (main K s0).final pathName = some helloWorld := by
    simpa [helloWorld] using h1
  have h2 := (run_effect K V hP s1 hok2.1).1
  rw [hok2.2, hs1, h1'] at h2
  have h2' : V.content (main K s1).final pathName = some helloWorld := by
    simpa [helloWorld] using h2
  exact ⟨h2'.trans h1'.symm, h1', h2'⟩

/-- Witness of C4: two runs in a row on the reference kernel. -/
theorem C4_witness :
    refView.content fresh (stringBytes "/tmp/test.txt") = none ∧
    allSucceed refKernel fresh ∧ allSucceed refKernel (main refKernel fresh).final ∧
    refView.content (main refKernel (main refKernel fresh).final).final
        (stringBytes "/tmp/test.txt")
      = refView.content (main refKernel fresh).final (stringBytes "/tmp/test.txt") :=
  ⟨by decide, by decide, by decide,
    (C4_second_run_leaves_same_content refKernel refView refKernel_posix fresh
      (main refKernel fresh).final (by decide) (by decide) rfl (by decide)).1⟩

/-- C5 as stated fails: a run in which no step reports an error prints four
lines, not five: the three result triples and the dump of the record that
fstat filled in. -/
theorem C5_counterexample :
    allZero refKernel fresh ∧
    (main refKernel fresh).out
      = [.println [.str "fd:", .uintptr 3, .str "r2:", .uintptr 0, .str "errNo:", .errno 0],
         .println [.str "r1:", .uintptr 11, .str "r2:", .uintptr 0, .str "errNo:", .errno 0],
         .println [.str "r1:", .uintptr 0, .str "r2:", .uintptr 0, .str "errNo:", .errno 0],
         .printf "%#v\n" (statRecord refKernel fresh)] ∧
    (statRecord refKernel fresh).Size = 11 ∧
    (main refKernel fresh).out.length = 4 ∧
    (main refKernel fresh).out.length ≠ 5 :=
  ⟨by decide, by decide, by decide, by decide, by decide⟩

/-- C5, amended: apart from diagnostic lines the console output of `main`
consists of four lines, in this fixed order: the open result triple
(`fd:`, `r2:`, `errNo:` with the three values the open call returned), the
write result triple and the metadata-query result triple (`r1:`, `r2:`,
`errNo:` with the values the write and the fstat call returned), and the dump
(`%#v`) of the `Stat` record that the fstat call left behind the pointer;
when no step reports an error these four lines are the whole output. -/
theorem C5_four_result_lines_in_order {σ : Type} (K : Kernel σ) (s0 : σ) :
    (trace K s0).map Prod.snd = [openRet K s0, writeRet K s0, statRet K s0] ∧
    (main K s0).out.filter (fun l => !isDiag l)
      = [.println [.str "fd:", .uintptr (openRet K s0).r1, .str "r2:",
           .uintptr (openRet K s0).r2, .str "errNo:", .errno (openRet K s0).errNo],
         .println [.str "r1:", .uintptr (writeRet K s0).r1, .str "r2:",
           .uintptr (writeRet K s0).r2, .str "errNo:", .errno (writeRet K s0).errNo],
         .println [.str "r1:", .uintptr (statRet K s0).r1, .str "r2:",
           .uintptr (statRet K s0).r2, .str "errNo:", .errno (statRet K s0).errNo],
         .printf "%#v\n" (statRecord K s0)] ∧
    (allZero K s0 →
      (main K s0).out
        = [.println [.str "fd:", .uintptr (openRet K s0).r1, .str "r2:",
             .uintptr (openRet K s0).r2, .str "errNo:", .errno (openRet K s0).errNo],
           .println [.str "r1:", .uintptr (writeRet K s0).r1, .str "r2:",
             .uintptr (writeRet K s0).r2, .str "errNo:", .errno (writeRet K s0).errNo],
           .println [.str "r1:", .uintptr (statRet K s0).r1, .str "r2:",
             .uintptr (statRet K s0).r2, .str "errNo:", .errno (statRet K s0).errNo],
           .printf "%#v\n" (statRecord K s0)]) := by
  refine ⟨?_, ?_, ?_⟩
  · simp only [trace, main, logging, pathByte_eq, payloadByte_eq, flags_eq, mode_eq, openRet,
      afterOpen, writeRet, afterWrite, statRet]
    rfl
  · simp only [main, statRecord, openRet, writeRet, statRet, afterOpen, afterWrite,
      pathByte_eq, payloadByte_eq, flags_eq, mode_eq, helloWorld_length]
    generalize K.sys_open s0 (pathName ++ [0]) 66 420 = o
    generalize K.sys_write o.2 o.1.r1 _ _ = w
    generalize K.sys_fstat w.2 o.1.r1 Stat.zero = f
    by_cases h1 : o.1.errNo = 0 <;> by_cases h2 : w.1.errNo = 0 <;>
      by_cases h3 : f.1.1.errNo = 0 <;>
      simp [h1, h2, h3, List.filter, isDiag, openLine, resultLine, dumpLine, openDiag,
        writeDiag, statDiag]
  · unfold allZero
    simp only [main, statRecord, openRet, writeRet, statRet, afterOpen, afterWrite,
      pathByte_eq, payloadByte_eq, flags_eq, mode_eq, helloWorld_length]
    generalize K.sys_open s0 (pathName ++ [0]) 66 420 = o
    generalize K.sys_write o.2 o.1.r1 _ _ = w
    generalize K.sys_fstat w.2 o.1.r1 Stat.zero = f
    rintro ⟨h1, h2, h3⟩
    simp [h1, h2, h3, openLine, resultLine, dumpLine]

/-- Witness of C5: the reference kernel from its fresh state. -/
theorem C5_witness :
    allZero refKernel fresh ∧
    (main refKernel fresh).out
      = [.println [.str "fd:", .uintptr (openRet refKernel fresh).r1, .str "r2:",
           .uintptr (openRet refKernel fresh).r2, .str "errNo:",
           .errno (openRet refKernel fresh).errNo],
         .println [.str "r1:", .uintptr (writeRet refKernel fresh).r1, .str "r2:",
           .uintptr (writeRet refKernel fresh).r2, .str "errNo:",
           .errno (writeRet refKernel fresh).errNo],
         .println [.str "r1:", .uintptr (statRet refKernel fresh).r1, .str "r2:",
           .uintptr (statRet refKernel fresh).r2, .str "errNo:",
           .errno (statRet refKernel fresh).errNo],
         .printf "%#v\n" (statRecord refKernel fresh)] :=
  ⟨by decide, (C5_four_result_lines_in_order refKernel fresh).2.2 (by decide)⟩

/-- C6: whatever the kernel returns, `main` issues exactly three calls, open
then write then fstat (fstat on the zero record), passes to write and to
fstat the `r1` of the open call unchanged, prints in this order the open
result line, the write result line and the fstat result line, each with the
three values its call returned, and last the dump of the record that the
fstat call left behind the pointer, and returns (`main` is a total
function). -/
theorem C6_no_step_aborts {σ : Type} (K : Kernel σ) (s0 : σ) :
    trace K s0
      = [(.sysOpen (stringBytes "/tmp/test.txt" ++ [0]) (O_CREAT ||| O_RDWR) 0o644,
            openRet K s0),
         (.sysWrite (openRet K s0).r1 (stringBytes "Hello world") 11, writeRet K s0),
         (.sysFstat (openRet K s0).r1
            { Dev := 0, Ino := 0, Nlink := 0, Mode := 0, Uid := 0, Gid := 0, X__pad0 := 0,
              Rdev := 0, Size := 0, Blksize := 0, Blocks := 0, Atim := { Sec := 0, Nsec := 0 },
              Mtim := { Sec := 0, Nsec := 0 }, Ctim := { Sec := 0, Nsec := 0 },
              X__unused := (0, 0, 0) },
            statRet K s0)] ∧
    (trace K s0).map (fun x => x.1.trap) = [SYS_OPEN, SYS_WRITE, SYS_FSTAT] ∧
    List.Sublist
      [.println [.str "fd:", .uintptr (openRet K s0).r1, .str "r2:",
         .uintptr (openRet K s0).r2, .str "errNo:", .errno (openRet K s0).errNo],
       .println [.str "r1:", .uintptr (writeRet K s0).r1, .str "r2:",
         .uintptr (writeRet K s0).r2, .str "errNo:", .errno (writeRet K s0).errNo],
       .println [.str "r1:", .uintptr (statRet K s0).r1, .str "r2:",
         .uintptr (statRet K s0).r2, .str "errNo:", .errno (statRet K s0).errNo],
       .printf "%#v\n" (statRecord K s0)]
      (main K s0).out ∧
    (main K s0).out.getLast? = some (.printf "%#v\n" (statRecord K s0)) ∧
    (main K s0).out.length = 4 + failedSteps K s0 ∧
    (main K s0).stat = statRecord K s0 := by
  rw [stringBytes_path, stringBytes_hello, flags_eq, mode_eq]
  refine ⟨?_, ?_, ?_, ?_, ?_, ?_⟩
  · simp only [trace, main, logging, pathByte_eq, payloadByte_eq, flags_eq, mode_eq, openRet,
      afterOpen, writeRet, afterWrite, statRet]
    rfl
  · simp only [trace, main, logging, pathByte_eq, payloadByte_eq, flags_eq, mode_eq]
    rfl
  · simp only [main, statRecord, openRet, writeRet, statRet, afterOpen, afterWrite,
      pathByte_eq, payloadByte_eq, flags_eq, mode_eq, helloWorld_length]
    exact four_sublist_left _ _ _ _ _ _ _
  · simp only [main, statRecord, openRet, writeRet, statRet, afterOpen, afterWrite,
      pathByte_eq, payloadByte_eq, flags_eq, mode_eq, helloWorld_length, dumpLine]
    exact List.getLast?_concat _
  · simp only [main, failedSteps, openRet, writeRet, statRet, afterOpen, afterWrite,
      pathByte_eq, payloadByte_eq, flags_eq, mode_eq, helloWorld_length]
    split_ifs <;> simp
  · simp only [main, statRecord, openRet, writeRet, afterOpen, afterWrite, pathByte_eq,
      payloadByte_eq, flags_eq, mode_eq, helloWorld_length]

/-- C7: for each of the three steps `main` prints the diagnostic line of that
step if and only if the error indicator of that step is non-zero, directly
before the result line of the step; the number of lines printed is 4 plus the
number of steps with a non-zero error indicator. -/
theorem C7_diagnostic_iff_error {σ : Type} (K : Kernel σ) (s0 : σ) :
    (main K s0).out =
      (if (openRet K s0).errNo ≠ 0 then [openDiag (openRet K s0).errNo] else []) ++
      [openLine (openRet K s0)] ++
      (if (writeRet K s0).errNo ≠ 0 then [writeDiag (writeRet K s0).errNo] else []) ++
      [resultLine (writeRet K s0)] ++
      (if (statRet K s0).errNo ≠ 0 then [statDiag (statRet K s0).errNo] else []) ++
      [resultLine (statRet K s0), dumpLine (main K s0).stat] ∧
    ((main K s0).out.any (hasMessage "error when opening the file:") = true
      ↔ (openRet K s0).errNo ≠ 0) ∧
    ((main K s0).out.any (hasMessage "error when writing to the file:") = true
      ↔ (writeRet K s0).errNo ≠ 0) ∧
    ((main K s0).out.any (hasMessage "error when stating the file:") = true
      ↔ (statRet K s0).errNo ≠ 0) ∧
    (main K s0).out.length = 4 + failedSteps K s0 := by
  refine ⟨main_out K s0, ?_, ?_, ?_, ?_⟩ <;> rw [main_out] <;>
    by_cases h1 : (openRet K s0).errNo = 0 <;> by_cases h2 : (writeRet K s0).errNo = 0 <;>
      by_cases h3 : (statRet K s0).errNo = 0 <;>
      simp [h1, h2, h3, hasMessage, openLine, resultLine, dumpLine, openDiag,
        writeDiag, statDiag, failedSteps]

/-- C8: overwrite without truncation.  On a kernel with POSIX file semantics,
from every state in which `/tmp/test.txt` exists with content `c` of length
`n` and all calls succeed (the write accepting the whole buffer), after one
run of `main` the content is "Hello world" followed by the bytes of `c` from
offset 11 on; it has length `n` when `n > 11` and is exactly "Hello world"
when `n ≤ 11`. -/
theorem C8_overwrite_without_truncation {σ : Type} (K : Kernel σ) (V : FsView σ)
    (hP : Posix K V) (s0 : σ) (c : List Nat)
    (hc : V.content s0 (stringBytes "/tmp/test.txt") = some c)
    (hok : allSucceed K s0) :
    V.content (main K s0).final (stringBytes "/tmp/test.txt")
      = some (stringBytes "Hello world" ++ c.drop 11) ∧
    (11 < c.length → (stringBytes "Hello world" ++ c.drop 11).length = c.length) ∧
    (c.length ≤ 11 →
      V.content (main K s0).final (stringBytes "/tmp/test.txt")
        = some (stringBytes "Hello world")) := by
  rw [stringBytes_path] at hc ⊢
  rw [stringBytes_hello]
  have h := (run_effect K V hP s0 hok.1).1
  rw [hok.2, hc] at h
  have h' : V.content (main K s0).final pathName = some (helloWorld ++ c.drop 11) := by
    simpa [helloWorld] using h
  refine ⟨h', ?_, ?_⟩
  · intro hn
    rw [List.length_append, List.length_drop]
    simp only [helloWorld_length]
    omega
  · intro hn
    rw [h', List.drop_eq_nil_of_le hn, List.append_nil]

/-- Witness of C8: the reference kernel with 20 bytes in the file. -/
theorem C8_witness :
    refView.content (withFile twentyBytes) (stringBytes "/tmp/test.txt") = some twentyBytes ∧
    allSucceed refKernel (withFile twentyBytes) ∧
    refView.content (main refKernel (withFile twentyBytes)).final (stringBytes "/tmp/test.txt")
      = some (stringBytes "Hello world" ++ twentyBytes.drop 11) :=
  ⟨by decide, by decide,
    (C8_overwrite_without_truncation refKernel refView refKernel_posix (withFile twentyBytes)
      twentyBytes (by decide) (by decide)).1⟩

/-- C9: the open call is issued with fixed arguments: a buffer of 14 bytes
whose first 13 bytes are those of "/tmp/test.txt", none of them zero, and
whose last byte is 0; flags `O_CREAT|O_RDWR` with neither the truncate nor
the append bit; permission bits 0o644 = 420, read and write for the owner,
read for group and others. -/
theorem C9_open_arguments {σ : Type} (K : Kernel σ) (s0 : σ) :
    ∃ buf flags mode r,
      (trace K s0).head? = some (.sysOpen buf flags mode, r) ∧
      buf.length = 14 ∧
      buf.take 13 = stringBytes "/tmp/test.txt" ∧
      (∀ b ∈ buf.take 13, b ≠ 0) ∧
      buf.get? 13 = some 0 ∧
      cstring buf = stringBytes "/tmp/test.txt" ∧
      flags = O_CREAT ||| O_RDWR ∧
      flags &&& O_ACCMODE = O_RDWR ∧
      flags &&& O_CREAT = O_CREAT ∧
      flags &&& O_TRUNC = 0 ∧
      flags &&& O_APPEND = 0 ∧
      mode = 0o644 ∧ mode = 420 ∧
      mode = 0o400 ||| 0o200 ||| 0o040 ||| 0o004 := by
  refine ⟨pathName ++ [0], 66, 420, openRet K s0, ?_, ?_⟩
  · rw [main_trace]
    rfl
  · decide

/-- C10: the `Stat` record needs no implicit padding.  With the fields in
declared order at their fixed widths, the offsets the compiler assigns are
those of the packed layout, every field starts at a multiple of its own
alignment, `Size` is at byte offset 48, a `Timespec` is 16 bytes (two 64-bit
integers) and the whole record is exactly 144 bytes. -/
theorem C10_stat_layout :
    StatFields.map (fun f => f.name)
      = ["Dev", "Ino", "Nlink", "Mode", "Uid", "Gid", "X__pad0", "Rdev", "Size", "Blksize",
         "Blocks", "Atim", "Mtim", "Ctim", "X__unused"] ∧
    offsetsFrom 0 StatFields = packedFrom 0 StatFields ∧
    packedAligned 0 StatFields = true ∧
    offsetsFrom 0 StatFields
      = [("Dev", 0), ("Ino", 8), ("Nlink", 16), ("Mode", 24), ("Uid", 28), ("Gid", 32),
         ("X__pad0", 36), ("Rdev", 40), ("Size", 48), ("Blksize", 56), ("Blocks", 64),
         ("Atim", 72), ("Mtim", 88), ("Ctim", 104), ("X__unused", 120)] ∧
    (offsetsFrom 0 StatFields).lookup "Size" = some 48 ∧
    TimespecFields.map (fun f => f.type) = [GoType.int64, GoType.int64] ∧
    TimespecType.size = 16 ∧
    offsetsFrom 0 TimespecFields = packedFrom 0 TimespecFields ∧
    structSize StatFields = 144 ∧
    packedSize StatFields = 144 := by
  decide

end WhatTheFile
